import Mathlib

/-!
Verification development for the Avalon client-signature module
(`common/crypto_utils/avalon_crypto_utils/signature.py`).

Modelling conventions:
* Python `str` and `bytes` values are both modelled as `Bytes := List Nat`
  (the UTF-8 byte encoding of the string); `.encode('UTF-8')` is the
  identity in the model, and Python string concatenation is `List.append`.
* Python dictionary fields are `Option` fields of a structure; an access
  `d["k"]` on a missing key is a `KeyError`, modelled with `Except PyErr`.
* SHA-256, base64 and the hex codec are the concrete standard functions
  (the Python side delegates them to `hashlib` / `base64` / hex helpers,
  which the repository's specification treats as a trusted capability).
* The ECDSA primitives (PEM parsing, deterministic signing, digest
  verification) and the AES data encryption are kept abstract in a
  `CryptoPrims` record: the module under verification only routes data
  into them, and the `ecdsa` library's `verify_digest` either returns
  `True` or raises (a `BadSignatureError`, whose message may contain
  "Malformed formatting of signature"), which the `VerifyOutcome` type
  captures.
-/

abbrev Bytes := List Nat

/-- ASCII byte encoding of a string literal (all literals used are ASCII,
where UTF-8 agrees with the character codes). -/
def ascii (s : String) : Bytes := s.toList.map Char.toNat

/-- Python exceptions that can escape the modelled functions. -/
inductive PyErr
  | keyError (k : String)
  | pyError (msg : String)
  deriving DecidableEq

deriving instance DecidableEq for Except

/-- Dictionary access `d["k"]`: raises `KeyError` when the key is absent. -/
def lookupKey {α : Type} (o : Option α) (k : String) : Except PyErr α :=
  match o with
  | some v => Except.ok v
  | none => Except.error (PyErr.keyError k)

/- ## SHA-256 (the `crypto_utility.compute_message_hash` primitive) -/

def w32 (x : Nat) : Nat := x % 4294967296

def rotr (n x : Nat) : Nat := w32 ((x >>> n) ||| (x <<< (32 - n)))

def bsig0 (x : Nat) : Nat := (rotr 2 x) ^^^ (rotr 13 x) ^^^ (rotr 22 x)

def bsig1 (x : Nat) : Nat := (rotr 6 x) ^^^ (rotr 11 x) ^^^ (rotr 25 x)

def ssig0 (x : Nat) : Nat := (rotr 7 x) ^^^ (rotr 18 x) ^^^ (x >>> 3)

def ssig1 (x : Nat) : Nat := (rotr 17 x) ^^^ (rotr 19 x) ^^^ (x >>> 10)

def chF (x y z : Nat) : Nat := (x &&& y) ^^^ ((x ^^^ 4294967295) &&& z)

def majF (x y z : Nat) : Nat := (x &&& y) ^^^ (x &&& z) ^^^ (y &&& z)

def K256 : List Nat :=
  [1116352408, 1899447441, 3049323471, 3921009573, 961987163, 1508970993, 2453635748, 2870763221,
   3624381080, 310598401, 607225278, 1426881987, 1925078388, 2162078206, 2614888103, 3248222580,
   3835390401, 4022224774, 264347078, 604807628, 770255983, 1249150122, 1555081692, 1996064986,
   2554220882, 2821834349, 2952996808, 3210313671, 3336571891, 3584528711, 113926993, 338241895,
   666307205, 773529912, 1294757372, 1396182291, 1695183700, 1986661051, 2177026350, 2456956037,
   2730485921, 2820302411, 3259730800, 3345764771, 3516065817, 3600352804, 4094571909, 275423344,
   430227734, 506948616, 659060556, 883997877, 958139571, 1322822218, 1537002063, 1747873779,
   1955562222, 2024104815, 2227730452, 2361852424, 2428436474, 2756734187, 3204031479, 3329325298]

def H256 : List Nat :=
  [1779033703, 3144134277, 1013904242, 2773480762, 1359893119, 2600822924, 528734635, 1541459225]

/-- Big-endian byte encoding of `v` on `n` bytes. -/
def beBytes : Nat → Nat → Bytes
  | 0, _ => []
  | n + 1, v => beBytes n (v / 256) ++ [v % 256]

/-- SHA-256 padding: append `0x80`, zeros, and the 64-bit bit length. -/
def padMessage (m : Bytes) : Bytes :=
  let L := m.length
  let k := (119 - (L % 64)) % 64
  m ++ [128] ++ List.replicate k 0 ++ beBytes 8 (8 * L)

/-- Split into 64-byte blocks (fuel-based so that it reduces in the kernel). -/
def chunk64 : Nat → Bytes → List Bytes
  | 0, _ => []
  | _ + 1, [] => []
  | fuel + 1, l => l.take 64 :: chunk64 fuel (l.drop 64)

def bytesToWords : Bytes → List Nat
  | a :: b :: c :: d :: rest => (((a * 256 + b) * 256 + c) * 256 + d) :: bytesToWords rest
  | _ => []

def wordBytes (w : Nat) : Bytes := [w / 16777216 % 256, w / 65536 % 256, w / 256 % 256, w % 256]

/-- Message-schedule extension: appends one word per fuel step. -/
def extendW : Nat → List Nat → List Nat
  | 0, ws => ws
  | n + 1, ws =>
    let t := ws.length
    let nw := w32 (ssig1 (ws.getD (t - 2) 0) + ws.getD (t - 7) 0 +
                   ssig0 (ws.getD (t - 15) 0) + ws.getD (t - 16) 0)
    extendW n (ws ++ [nw])

def compressStep (st : Nat × Nat × Nat × Nat × Nat × Nat × Nat × Nat) (kw : Nat × Nat) :
    Nat × Nat × Nat × Nat × Nat × Nat × Nat × Nat :=
  match st with
  | (a, b, c, d, e, f, g, hh) =>
    let t1 := w32 (hh + bsig1 e + chF e f g + kw.1 + kw.2)
    let t2 := w32 (bsig0 a + majF a b c)
    (w32 (t1 + t2), a, b, c, w32 (d + t1), e, f, g)

def compressBlock (hs : List Nat) (block : Bytes) : List Nat :=
  let ws := extendW 48 (bytesToWords block)
  let r := (K256.zip ws).foldl compressStep
    (hs.getD 0 0, hs.getD 1 0, hs.getD 2 0, hs.getD 3 0,
     hs.getD 4 0, hs.getD 5 0, hs.getD 6 0, hs.getD 7 0)
  [w32 (hs.getD 0 0 + r.1), w32 (hs.getD 1 0 + r.2.1), w32 (hs.getD 2 0 + r.2.2.1),
   w32 (hs.getD 3 0 + r.2.2.2.1), w32 (hs.getD 4 0 + r.2.2.2.2.1),
   w32 (hs.getD 5 0 + r.2.2.2.2.2.1), w32 (hs.getD 6 0 + r.2.2.2.2.2.2.1),
   w32 (hs.getD 7 0 + r.2.2.2.2.2.2.2)]

/-- Modelled from the spec: `crypto_utility.compute_message_hash` is not
among the sources; the spec names it as the SHA-256 trusted capability, so
it is the standard SHA-256 digest (32 bytes), validated below against the
FIPS 180-4 `"abc"` test vector. -/
def sha256 (m : Bytes) : Bytes :=
  let blocks := chunk64 (m.length + 72) (padMessage m)
  (blocks.foldl compressBlock H256).foldr (fun w acc => wordBytes w ++ acc) []

/- ## Base64 and hex codecs (the `byte_array_to_base64` / hex-string primitives) -/

def b64Char (n : Nat) : Nat :=
  if n < 26 then 65 + n
  else if n < 52 then 97 + (n - 26)
  else if n < 62 then 48 + (n - 52)
  else if n = 62 then 43 else 47

/-- Modelled from the spec: `crypto_utility.byte_array_to_base64` is not
among the sources; the spec names the base64 codec as a trusted capability,
so this is standard base64 with `=` padding, as ASCII bytes. -/
def base64Encode : Bytes → Bytes
  | [] => []
  | [a] => [b64Char (a / 4), b64Char (a % 4 * 16), 61, 61]
  | [a, b] => [b64Char (a / 4), b64Char (a % 4 * 16 + b / 16), b64Char (b % 16 * 4), 61]
  | a :: b :: c :: rest =>
    [b64Char (a / 4), b64Char (a % 4 * 16 + b / 16), b64Char (b % 16 * 4 + c / 64), b64Char (c % 64)]
      ++ base64Encode rest

def hexDigitChar (n : Nat) : Nat := if n < 10 then 48 + n else 87 + n

/-- Modelled from the spec: `byte_array_to_hex_str` / `byte_array_to_hex`
are not among the sources; the spec names the hex codec as a trusted
capability, so this is lowercase hex, as ASCII bytes. -/
def hexEncode : Bytes → Bytes
  | [] => []
  | b :: rest => hexDigitChar (b / 16) :: hexDigitChar (b % 16) :: hexEncode rest


/- ## Data model -/

/-- An `inData`/`outData` item (EEA 6.1.7 Work Order Data Formats), as the
Python code sees it: a dictionary whose keys may be absent. -/
structure DataItem where
  index : Option Int := none
  data : Option Bytes := none
  dataHash : Option Bytes := none
  encryptedDataEncryptionKey : Option Bytes := none
  iv : Option Bytes := none
  deriving DecidableEq

/-- Modelled from the spec: the enum `error_code.error_status.SignatureStatus`
is not among the sources; the spec fixes the status taxonomy as exactly
{PASSED, FAILED, INVALID_SIGNATURE_FORMAT, INVALID_VERIFICATION_KEY}. -/
inductive SignatureStatus
  | PASSED
  | FAILED
  | INVALID_SIGNATURE_FORMAT
  | INVALID_VERIFICATION_KEY
  deriving DecidableEq

/-- Outcome of the `ecdsa` library's `VerifyingKey.verify_digest`, which
returns `True` on success and otherwise raises an exception whose message
may contain "Malformed formatting of signature". -/
inductive VerifyOutcome
  | returnsTrue
  | raisesMalformed
  | raisesOther
  deriving DecidableEq

/-- The external cryptographic capability used by the module: AES data
encryption, ECDSA key derivation / deterministic signing / verification,
PEM parsing, base64 decoding, and the `secrets.token_hex(16)` nonce drawn
by the current call.  Private keys are opaque (`Nat`); parsed public keys
are opaque byte strings. -/
structure CryptoPrims where
  encrypt_data : Bytes → Option Bytes → Option Bytes → Bytes
  get_verifying_key : Nat → Except PyErr Bytes
  sign_digest_deterministic : Nat → Bytes → Except PyErr Bytes
  from_pem : Bytes → Except PyErr Bytes
  verify_digest : Bytes → Bytes → Bytes → VerifyOutcome
  base64_to_byte_array : Bytes → Except PyErr Bytes
  token_hex : Bytes

/-- The `params` dictionary of a work order request (EEA 6.1.1). -/
structure Params where
  requesterNonce : Option Bytes := none
  workOrderId : Option Bytes := none
  workerId : Option Bytes := none
  workloadId : Option Bytes := none
  requesterId : Option Bytes := none
  inData : Option (List DataItem) := none
  outData : Option (List DataItem) := none
  sessionKeyIv : Option Bytes := none
  encryptedSessionKey : Option Bytes := none
  encryptedRequestHash : Option Bytes := none
  requesterSignature : Option Bytes := none
  verifyingKey : Option Bytes := none
  deriving DecidableEq

structure WorkOrderRequest where
  params : Option Params := none
  deriving DecidableEq

/-- A work order response dictionary (EEA 6.1.2), with the keys the
verification paths read. -/
structure WorkOrderResponse where
  workOrderId : Option Bytes := none
  workerId : Option Bytes := none
  workloadId : Option Bytes := none
  requesterId : Option Bytes := none
  workerNonce : Option Bytes := none
  workerSignature : Option Bytes := none
  outData : Option (List DataItem) := none
  extVerificationKey : Option Bytes := none
  extVerificationKeySignature : Option Bytes := none
  deriving DecidableEq

/-- The header fields read by `__calculate_hash_on_concatenated_string`;
both request params and response dictionaries flow through it. -/
structure HeaderView where
  workOrderId : Option Bytes
  workerId : Option Bytes
  workloadId : Option Bytes
  requesterId : Option Bytes

def Params.headerView (p : Params) : HeaderView :=
  ⟨p.workOrderId, p.workerId, p.workloadId, p.requesterId⟩

def WorkOrderResponse.headerView (r : WorkOrderResponse) : HeaderView :=
  ⟨r.workOrderId, r.workerId, r.workloadId, r.requesterId⟩

/- ## Canonical hash builders -/

/-- `__calculate_hash_on_concatenated_string`: hash of
`nonce ++ workOrderId ++ workerId ++ workloadId(or empty) ++ requesterId`,
base64-encoded.  `workloadId` defaults to the empty string when absent; the
other fields raise `KeyError` when absent. -/
def calculate_hash_on_concatenated_string (hv : HeaderView) (nonce : Bytes) :
    Except PyErr Bytes :=
  (lookupKey hv.workOrderId ("workOrderId")).bind fun workorder_id =>
  (lookupKey hv.workerId ("workerId")).bind fun worker_id =>
  let workload_id := hv.workloadId.getD []
  (lookupKey hv.requesterId ("requesterId")).bind fun requester_id =>
  Except.ok (base64Encode (sha256 (nonce ++ workorder_id ++ worker_id ++ workload_id ++ requester_id)))

/-- The per-item byte string hashed by `calculate_datahash`:
`dataHash(or empty) ++ data ++ encryptedDataEncryptionKey(or empty) ++ iv(or empty)`.
`data` raises `KeyError` when absent. -/
def itemChunk (it : DataItem) : Except PyErr Bytes :=
  let datahash := it.dataHash.getD []
  (lookupKey it.data ("data")).bind fun d =>
  let e_key := it.encryptedDataEncryptionKey.getD []
  let iv0 := it.iv.getD []
  Except.ok (datahash ++ d ++ e_key ++ iv0)

/-- `data_objects.sort(key=lambda x: x['index'])` evaluates the key of every
item (in list order) and raises `KeyError` at the first item without an
`index`. -/
def extractKeyed : List DataItem → Except PyErr (List (Int × DataItem))
  | [] => Except.ok []
  | it :: rest =>
    match it.index with
    | none => Except.error (PyErr.keyError ("index"))
    | some i =>
      match extractKeyed rest with
      | Except.error e => Except.error e
      | Except.ok ks => Except.ok ((i, it) :: ks)

/-- The `for` loop of `calculate_datahash`, accumulating `hash_str`. -/
def datahashLoop : List (Int × DataItem) → Bytes → Except PyErr Bytes
  | [], acc => Except.ok acc
  | p :: rest, acc =>
    match itemChunk p.2 with
    | Except.error e => Except.error e
    | Except.ok c => datahashLoop rest (acc ++ base64Encode (sha256 c))

/-- `calculate_datahash`: sort the items ascending by `index` (Python's sort
is stable; `List.insertionSort` is the stable sort with the same
specification), then concatenate the base64 encodings of the per-item
SHA-256 digests. -/
def calculate_datahash (data_objects : List DataItem) : Except PyErr Bytes :=
  match extractKeyed data_objects with
  | Except.error e => Except.error e
  | Except.ok keyed =>
    datahashLoop (List.insertionSort (fun a b => a.1 ≤ b.1) keyed) []

/- Spec-side rendering of claim C1, for the refinement comparison: per-item
digests are computed in sorted order, each base64-encoded, and the base64
strings are concatenated (`flatten`), rather than hashing all items at
once. -/

def perItemHash (p : Int × DataItem) : Except PyErr Bytes :=
  match itemChunk p.2 with
  | Except.error e => Except.error e
  | Except.ok c => Except.ok (base64Encode (sha256 c))

def perItemHashes : List (Int × DataItem) → Except PyErr (List Bytes)
  | [] => Except.ok []
  | p :: rest =>
    match perItemHash p with
    | Except.error e => Except.error e
    | Except.ok hb =>
      match perItemHashes rest with
      | Except.error e => Except.error e
      | Except.ok hs => Except.ok (hb :: hs)

/-- The data-items hash as the claim's words describe it (a definition from
the claim, compared against `calculate_datahash` below). -/
def calculate_datahash_spec (data_objects : List DataItem) : Except PyErr Bytes :=
  match extractKeyed data_objects with
  | Except.error e => Except.error e
  | Except.ok keyed =>
    match perItemHashes (List.insertionSort (fun a b => a.1 ≤ b.1) keyed) with
    | Except.error e => Except.error e
    | Except.ok hs => Except.ok hs.flatten

/- ## Data item encryption (`__encrypt_workorder_indata`) -/

/-- The loop of `__encrypt_workorder_indata`: each item's `data` is replaced
in place with a base64-encoded result.  `item['data']` and
`item['encryptedDataEncryptionKey']` are read without defaults, so a missing
key raises `KeyError`.  An empty key or the literal `"null"` selects the
session key/IV, the literal `"-"` skips encryption, anything else selects
the `data_key`/`data_iv` pair (which the caller may have left as `None`).
`worker_encryption_key` is accepted and unused, as in the source. -/
def encryptIndataLoop (cp : CryptoPrims) (session_key session_iv : Bytes)
    (worker_encryption_key : Bytes) (data_key data_iv : Option Bytes) :
    List DataItem → Except PyErr (List DataItem)
  | [] => Except.ok []
  | item :: rest =>
    (lookupKey item.data ("data")).bind fun data =>
    (lookupKey item.encryptedDataEncryptionKey ("encryptedDataEncryptionKey")).bind fun e_key =>
    let newData :=
      if e_key = [] ∨ e_key = ascii ("null") then
        base64Encode (cp.encrypt_data data (some session_key) (some session_iv))
      else if e_key = ascii ("-") then
        base64Encode data
      else
        base64Encode (cp.encrypt_data data data_key data_iv)
    match encryptIndataLoop cp session_key session_iv worker_encryption_key data_key data_iv rest with
    | Except.error e => Except.error e
    | Except.ok rest2 => Except.ok ({ item with data := some newData } :: rest2)

/- ## Signature generation -/

/-- The mutable instance state of a `ClientSignature` object
(`self.private_key`, `self.public_key`, both `None` after `__init__`). -/
structure SigState where
  private_key : Option Nat := none
  public_key : Option Bytes := none
  deriving DecidableEq

/-- `generate_signature(self, hash, private_key)`: stores the private key and
the derived public key on `self`, signs the digest with the deterministic
ECDSA signer, and returns `(status, base64 signature)`.  Any exception in
the `try` block yields `(False, None)`; the `self.private_key` assignment
precedes the fallible key derivation, so it sticks even on that failure. -/
def generate_signature (cp : CryptoPrims) (selfSt : SigState) (hash : Bytes)
    (private_key : Nat) : SigState × Bool × Option Bytes :=
  match cp.get_verifying_key private_key with
  | Except.error _ => ({ selfSt with private_key := some private_key }, false, none)
  | Except.ok pub =>
    match cp.sign_digest_deterministic private_key hash with
    | Except.error _ => ({ private_key := some private_key, public_key := some pub }, false, none)
    | Except.ok signature_res =>
      ({ private_key := some private_key, public_key := some pub },
       true, some (base64Encode signature_res))

/- ## Request orchestrator (`generate_client_signature`) -/

/-- Worker metadata (EEA 8.1 common data) used by the algorithm checks. -/
structure Worker where
  hashing_algorithm : String
  signing_algorithm : String
  encryption_key : Bytes

/-- The `WorkerConfig` section of `tcs_config.toml`. -/
structure TcsConfig where
  HashingAlgorithm : String
  SigningAlgorithm : String

/-- The two shapes `generate_client_signature` can return: the (unmodified)
input JSON string / re-serialized JSON string, or the bare `params`
dictionary of the nonce-failure paths. -/
inductive PyReturn
  | jsonStr (r : WorkOrderRequest)
  | paramsDict (p : Params)
  deriving DecidableEq

/-- `__payload_json_check`: `params` must be present together with the five
mandatory parameters, and every `inData` item must have a non-empty `data`
and an `index`. -/
def payload_json_check (input_json : WorkOrderRequest) : Bool :=
  match input_json.params with
  | none => false
  | some p =>
    if p.requesterNonce.isSome && p.workOrderId.isSome && p.workerId.isSome &&
        p.requesterId.isSome && p.inData.isSome then
      (p.inData.getD []).all fun obj =>
        obj.data.isSome && decide (obj.data ≠ some []) && obj.index.isSome
    else false

/-- Modelled from the spec: `is_valid_hex_str` lives in `utility.hex_utils`,
which is not among the sources.  The spec calls `requesterNonce` a hex
string and requires rejecting a malformed non-hex supplied value, so a
value is valid hex when it is nonempty and all its bytes are ASCII
hexadecimal digits. -/
def isHexDigitByte (b : Nat) : Bool :=
  (48 ≤ b && b ≤ 57) || (97 ≤ b && b ≤ 102) || (65 ≤ b && b ≤ 70)

def is_valid_hex_str (s : Bytes) : Bool :=
  decide (s ≠ []) && s.all isHexDigitByte

/-- The tail of `generate_client_signature` after the nonce handling:
header hash, data hashes, final hash, encrypted request hash, signing, and
re-serialization.  On signing failure the original input string is
returned with FAILED. -/
def gcsAfterNonce (cp : CryptoPrims) (selfSt : SigState)
    (input_json_str : WorkOrderRequest) (private_key : Nat)
    (session_key session_iv : Bytes) (encrypted_session_key_str : Bytes)
    (params3 : Params) : Except PyErr (SigState × PyReturn × SignatureStatus) :=
  (lookupKey params3.requesterNonce ("requesterNonce")).bind fun nonce =>
  (calculate_hash_on_concatenated_string params3.headerView nonce).bind fun hash_string_1 =>
  (lookupKey params3.inData ("inData")).bind fun data_objects =>
  (calculate_datahash data_objects).bind fun hash_string_2 =>
  (match params3.outData with
   | some od => calculate_datahash od
   | none => Except.ok []).bind fun hash_string_3 =>
  let final_hash := sha256 (hash_string_1 ++ hash_string_2 ++ hash_string_3)
  let encrypted_request_hash_str :=
    hexEncode (cp.encrypt_data final_hash (some session_key) (some session_iv))
  let params4 := { params3 with encryptedRequestHash := some encrypted_request_hash_str }
  let sres := generate_signature cp selfSt final_hash private_key
  if sres.2.1 = false then
    Except.ok (sres.1, PyReturn.jsonStr input_json_str, SignatureStatus.FAILED)
  else
    let params5 := { params4 with
      requesterSignature := sres.2.2,
      encryptedSessionKey := some encrypted_session_key_str,
      verifyingKey := sres.1.public_key }
    Except.ok (sres.1, PyReturn.jsonStr { params := some params5 }, SignatureStatus.PASSED)

/-- `generate_client_signature`: payload validation, algorithm checks,
`sessionKeyIv` insertion, inData encryption, nonce handling, then
`gcsAfterNonce`.  JSON loading/dumping is the identity on the structured
model; early failures return the original input string, the nonce failure
paths return the (already mutated) `params` dictionary. -/
def generate_client_signature (cp : CryptoPrims) (selfSt : SigState)
    (input_json_str : WorkOrderRequest) (worker : Worker) (tcs_worker : TcsConfig)
    (private_key : Nat) (session_key session_iv : Bytes)
    (encrypted_session_key : Bytes) (data_key data_iv : Option Bytes) :
    Except PyErr (SigState × PyReturn × SignatureStatus) :=
  if payload_json_check input_json_str = false then
    Except.ok (selfSt, PyReturn.jsonStr input_json_str, SignatureStatus.FAILED)
  else if tcs_worker.HashingAlgorithm ≠ worker.hashing_algorithm then
    Except.ok (selfSt, PyReturn.jsonStr input_json_str, SignatureStatus.FAILED)
  else if tcs_worker.SigningAlgorithm ≠ worker.signing_algorithm then
    Except.ok (selfSt, PyReturn.jsonStr input_json_str, SignatureStatus.FAILED)
  else
    (lookupKey input_json_str.params ("params")).bind fun params0 =>
    let params1 := { params0 with sessionKeyIv := some (hexEncode session_iv) }
    let encrypted_session_key_str := hexEncode encrypted_session_key
    (lookupKey params1.inData ("inData")).bind fun indata0 =>
    (encryptIndataLoop cp session_key session_iv worker.encryption_key data_key data_iv indata0).bind
      fun indata1 =>
    let params2 := { params1 with inData := some indata1 }
    match params2.requesterNonce with
    | none => Except.ok (selfSt, PyReturn.paramsDict params2, SignatureStatus.FAILED)
    | some rn =>
      if rn.length = 0 then
        gcsAfterNonce cp selfSt input_json_str private_key session_key session_iv
          encrypted_session_key_str { params2 with requesterNonce := some cp.token_hex }
      else if is_valid_hex_str rn = false then
        Except.ok (selfSt, PyReturn.paramsDict params2, SignatureStatus.FAILED)
      else
        gcsAfterNonce cp selfSt input_json_str private_key session_key session_iv
          encrypted_session_key_str params2

/- ## Signature verification -/

/-- The `try/except` classification shared by all verification paths: a
truthy `verify_digest` result is PASSED, an exception whose text contains
"Malformed formatting of signature" is INVALID_SIGNATURE_FORMAT, any other
exception is FAILED. -/
def statusOfVerify (o : VerifyOutcome) : SignatureStatus :=
  match o with
  | VerifyOutcome.returnsTrue => SignatureStatus.PASSED
  | VerifyOutcome.raisesMalformed => SignatureStatus.INVALID_SIGNATURE_FORMAT
  | VerifyOutcome.raisesOther => SignatureStatus.FAILED

/-- `_verify_wo_response_signature`: recompute the response digest, parse the
PEM key (failure → INVALID_VERIFICATION_KEY), base64-decode the worker
signature (outside any `try`: a decoding failure escapes), verify. -/
def verify_wo_response_signature (cp : CryptoPrims) (wo_response : WorkOrderResponse)
    (wo_res_verification_key : Bytes) : Except PyErr SignatureStatus :=
  (lookupKey wo_response.workerNonce ("workerNonce")).bind fun worker_nonce =>
  (lookupKey wo_response.workerSignature ("workerSignature")).bind fun signature =>
  (calculate_hash_on_concatenated_string wo_response.headerView worker_nonce).bind fun hash_string_1 =>
  (lookupKey wo_response.outData ("outData")).bind fun data_objects =>
  (calculate_datahash data_objects).bind fun hash_string_2 =>
  let final_hash := sha256 (hash_string_1 ++ hash_string_2)
  match cp.from_pem wo_res_verification_key with
  | Except.error _ => Except.ok SignatureStatus.INVALID_VERIFICATION_KEY
  | Except.ok vkey =>
    (cp.base64_to_byte_array signature).bind fun decoded_signature =>
    Except.ok (statusOfVerify (cp.verify_digest vkey decoded_signature final_hash))

/-- `_verify_wo_verification_key_signature`: a missing `requester_nonce` is
FAILED before anything else runs; then the assertion signature over
`extVerificationKey ++ requesterNonce` is verified with the worker key. -/
def verify_wo_verification_key_signature (cp : CryptoPrims)
    (wo_response : WorkOrderResponse) (wo_verification_key : Bytes)
    (requester_nonce : Option Bytes) : Except PyErr SignatureStatus :=
  match requester_nonce with
  | none => Except.ok SignatureStatus.FAILED
  | some nonce =>
    (lookupKey wo_response.extVerificationKey ("extVerificationKey")).bind fun evk =>
    (lookupKey wo_response.extVerificationKeySignature ("extVerificationKeySignature")).bind
      fun v_key_sig =>
    let v_key_hash := sha256 (evk ++ nonce)
    match cp.from_pem wo_verification_key with
    | Except.error _ => Except.ok SignatureStatus.INVALID_VERIFICATION_KEY
    | Except.ok vkey =>
      (cp.base64_to_byte_array v_key_sig).bind fun decoded =>
      Except.ok (statusOfVerify (cp.verify_digest vkey decoded v_key_hash))

/-- `verify_signature`: two-step verification when `extVerificationKey` is
present (step 2 runs only on a PASSED step 1), single-step verification
against the worker key otherwise. -/
def verify_signature (cp : CryptoPrims) (wo_response : WorkOrderResponse)
    (wo_res_verification_key : Bytes) (requester_nonce : Option Bytes) :
    Except PyErr SignatureStatus :=
  match wo_response.extVerificationKey with
  | some _ =>
    (verify_wo_verification_key_signature cp wo_response wo_res_verification_key
      requester_nonce).bind fun status =>
    if status = SignatureStatus.PASSED then
      (lookupKey wo_response.extVerificationKey ("extVerificationKey")).bind fun evk =>
      verify_wo_response_signature cp wo_response evk
    else Except.ok status
  | none => verify_wo_response_signature cp wo_response wo_res_verification_key

/- ## Receipt signature verification -/

/-- Decimal string of a Python integer (`str(n)`), as ASCII bytes. -/
def strOfInt (i : Int) : Bytes := (toString i).toList.map Char.toNat

/-- The payload of `verify_update_receipt_signature` (EEA 7.2.7). -/
structure ReceiptUpdate where
  workOrderId : Option Bytes := none
  updateType : Option Int := none
  updateData : Option Bytes := none
  updateSignature : Option Bytes := none
  receiptVerificationKey : Option Bytes := none
  deriving DecidableEq

/-- `verify_update_receipt_signature`: hash of
`workOrderId ++ str(updateType) ++ updateData`, then PEM parse / decode /
verify as in the other paths. -/
def verify_update_receipt_signature (cp : CryptoPrims) (input_json : ReceiptUpdate) :
    Except PyErr SignatureStatus :=
  (lookupKey input_json.workOrderId ("workOrderId")).bind fun wo_id =>
  (lookupKey input_json.updateType ("updateType")).bind fun upd_type =>
  (lookupKey input_json.updateData ("updateData")).bind fun upd_data =>
  let final_hash := sha256 (wo_id ++ strOfInt upd_type ++ upd_data)
  (lookupKey input_json.updateSignature ("updateSignature")).bind fun signature =>
  (lookupKey input_json.receiptVerificationKey ("receiptVerificationKey")).bind fun vkey_pem =>
  match cp.from_pem vkey_pem with
  | Except.error _ => Except.ok SignatureStatus.INVALID_VERIFICATION_KEY
  | Except.ok vkey =>
    (cp.base64_to_byte_array signature).bind fun decoded_signature =>
    Except.ok (statusOfVerify (cp.verify_digest vkey decoded_signature final_hash))

/-- The `params` of a receipt-create payload (EEA 7.2.2). -/
structure ReceiptCreateParams where
  workOrderId : Option Bytes := none
  workerServiceId : Option Bytes := none
  workerId : Option Bytes := none
  requesterId : Option Bytes := none
  receiptCreateStatus : Option Int := none
  workOrderRequestHash : Option Bytes := none
  requesterGeneratedNonce : Option Bytes := none
  requesterSignature : Option Bytes := none
  receiptVerificationKey : Option Bytes := none
  deriving DecidableEq

structure ReceiptCreateRequest where
  params : Option ReceiptCreateParams := none
  deriving DecidableEq

/-- `verify_create_receipt_signature`: hash of the seven concatenated fields
(`receiptCreateStatus` through `str(...)`), then PEM parse / decode /
verify. -/
def verify_create_receipt_signature (cp : CryptoPrims) (input_json : ReceiptCreateRequest) :
    Except PyErr SignatureStatus :=
  (lookupKey input_json.params ("params")).bind fun p =>
  (lookupKey p.workOrderId ("workOrderId")).bind fun wo_id =>
  (lookupKey p.workerServiceId ("workerServiceId")).bind fun ws_id =>
  (lookupKey p.workerId ("workerId")).bind fun wk_id =>
  (lookupKey p.requesterId ("requesterId")).bind fun rq_id =>
  (lookupKey p.receiptCreateStatus ("receiptCreateStatus")).bind fun rc_status =>
  (lookupKey p.workOrderRequestHash ("workOrderRequestHash")).bind fun worh =>
  (lookupKey p.requesterGeneratedNonce ("requesterGeneratedNonce")).bind fun rg_nonce =>
  let final_hash := sha256 (wo_id ++ ws_id ++ wk_id ++ rq_id ++ strOfInt rc_status ++ worh ++ rg_nonce)
  (lookupKey p.requesterSignature ("requesterSignature")).bind fun signature =>
  (lookupKey p.receiptVerificationKey ("receiptVerificationKey")).bind fun vkey_pem =>
  match cp.from_pem vkey_pem with
  | Except.error _ => Except.ok SignatureStatus.INVALID_VERIFICATION_KEY
  | Except.ok vkey =>
    (cp.base64_to_byte_array signature).bind fun decoded_signature =>
    Except.ok (statusOfVerify (cp.verify_digest vkey decoded_signature final_hash))

/- ## Work order request hash (`calculate_request_hash`) -/

/-- `calculate_request_hash`: the header concatenation reads `workloadId`
directly (no default, unlike `__calculate_hash_on_concatenated_string`),
then the inData hash, the outData hash when `outData` is present and
non-empty, and a final SHA-256 returned as a hex string. -/
def calculate_request_hash (input_json : WorkOrderRequest) : Except PyErr Bytes :=
  (lookupKey input_json.params ("params")).bind fun wo_request_params =>
  (lookupKey wo_request_params.requesterNonce ("requesterNonce")).bind fun nonce =>
  (lookupKey wo_request_params.workOrderId ("workOrderId")).bind fun wo_id =>
  (lookupKey wo_request_params.workerId ("workerId")).bind fun wk_id =>
  (lookupKey wo_request_params.workloadId ("workloadId")).bind fun wl_id =>
  (lookupKey wo_request_params.requesterId ("requesterId")).bind fun rq_id =>
  let hash_1 := base64Encode (sha256 (nonce ++ wo_id ++ wk_id ++ wl_id ++ rq_id))
  (lookupKey wo_request_params.inData ("inData")).bind fun in_data =>
  (calculate_datahash in_data).bind fun hash_2 =>
  (match wo_request_params.outData with
   | some od => if od.length > 0 then calculate_datahash od else Except.ok []
   | none => Except.ok []).bind fun hash_3 =>
  Except.ok (hexEncode (sha256 (hash_1 ++ hash_2 ++ hash_3)))

/- ## Concrete fixtures for witnesses and counterexamples -/

/-- A concrete instantiation of the abstract primitives, used to evaluate
the modelled functions at concrete inputs: encryption prepends key and IV,
signing prepends the key, PEM parsing and base64 decoding are the identity
and always succeed, and verification always succeeds. -/
def testPrims : CryptoPrims where
  encrypt_data := fun d k i => k.getD [] ++ i.getD [] ++ d
  get_verifying_key := fun pk => Except.ok [80, pk % 256]
  sign_digest_deterministic := fun pk h => Except.ok (pk % 256 :: h)
  from_pem := fun b => Except.ok b
  verify_digest := fun _ _ _ => VerifyOutcome.returnsTrue
  base64_to_byte_array := fun b => Except.ok b
  token_hex := ascii ("00112233445566778899aabbccddeeff")

/-- Like `testPrims`, but `verify_digest` raises a non-malformed exception
(the `ecdsa` `BadSignatureError` case). -/
def failVerifyPrims : CryptoPrims :=
  { testPrims with verify_digest := fun _ _ _ => VerifyOutcome.raisesOther }

def demoItemA : DataItem :=
  { index := some 1, data := some (ascii ("abc")), iv := some (ascii ("0102")) }

def demoItemB : DataItem :=
  { index := some 0, data := some (ascii ("xyz")), dataHash := some (ascii ("dh")) }

def demoItems : List DataItem := [demoItemA, demoItemB]

/-- The concrete result of `calculate_datahash demoItems`. -/
def demoRes : Bytes := (calculate_datahash demoItems).toOption.getD []


/- ## Fixture and predicate definitions used by the theorems below -/

instance : IsTotal (Int × DataItem) (fun a b => a.1 ≤ b.1) :=
  ⟨fun a b => Int.le_total a.1 b.1⟩

instance : IsTrans (Int × DataItem) (fun a b => a.1 ≤ b.1) :=
  ⟨fun _ _ _ h1 h2 => le_trans h1 h2⟩

instance : IsAntisymm (Int × DataItem) (fun a b => a.1 < b.1) :=
  ⟨fun _ _ h1 h2 => absurd (lt_trans h1 h2) (lt_irrefl _)⟩

/-- Items sharing index `0` but with different data: a permutation changes
the result (the stable sort keeps the input order of equal keys). -/
def cItemX : DataItem := { index := some 0, data := some (ascii ("x")) }

def cItemY : DataItem := { index := some 0, data := some (ascii ("y")) }

/-- Items identical except for the `index` value. -/
def cItem5 : DataItem := { index := some 5, data := some (ascii ("abc")) }

def cItem7 : DataItem := { index := some 7, data := some (ascii ("abc")) }

def wItem1 : DataItem := { index := some 2, data := some (ascii ("aa")) }

def wItem2 : DataItem := { index := some 1, data := some (ascii ("bb")) }

def c2Resp : WorkOrderResponse :=
  { extVerificationKey := some (ascii ("EK")),
    extVerificationKeySignature := some (ascii ("SG")) }

/-- `c2Resp` with step-2 fields changed, to exercise the frame property. -/
def c2Resp2 : WorkOrderResponse :=
  { c2Resp with workerNonce := some (ascii ("junk")), workerSignature := some (ascii ("jj")) }

def c10Item : DataItem :=
  { index := some 0, data := some (ascii ("pt")),
    encryptedDataEncryptionKey := some (ascii ("null")) }

/-- The per-item `data` replacement as the amended claim describes it: with
the `encryptedDataEncryptionKey` field present, an empty value or `"null"`
selects the session key and IV, `"-"` skips encryption and only
base64-encodes the plaintext, and any other value selects the data key and
IV. -/
def encryptItemSpecData (cp : CryptoPrims) (session_key session_iv : Bytes)
    (data_key data_iv : Option Bytes) (d ek : Bytes) : Bytes :=
  if ek = [] ∨ ek = ascii ("null") then
    base64Encode (cp.encrypt_data d (some session_key) (some session_iv))
  else if ek = ascii ("-") then
    base64Encode d
  else
    base64Encode (cp.encrypt_data d data_key data_iv)

def c4NullItem : DataItem :=
  { index := some 0, data := some (ascii ("pt")),
    encryptedDataEncryptionKey := some (ascii ("null")) }

def c4AbsentItem : DataItem := { index := some 1, data := some (ascii ("pt")) }

/-- Items exercising all three present-field modes: empty key, `"-"`, and an
item-specific key. -/
def c4ModeItems : List DataItem :=
  [{ index := some 0, data := some (ascii ("p0")), encryptedDataEncryptionKey := some [] },
   { index := some 1, data := some (ascii ("p1")), encryptedDataEncryptionKey := some (ascii ("-")) },
   { index := some 2, data := some (ascii ("p2")), encryptedDataEncryptionKey := some (ascii ("IK")) }]

def c7Item : DataItem := { index := some 0, data := some (ascii ("abc")) }

/-- A request with every field `calculate_request_hash` needs except the
optional `workloadId`. -/
def c7Params : Params :=
  { requesterNonce := some (ascii ("aa")), workOrderId := some (ascii ("wo1")),
    workerId := some (ascii ("w1")), requesterId := some (ascii ("r1")),
    inData := some [c7Item] }

def c7Req : WorkOrderRequest := { params := some c7Params }

def itemPresent (it : DataItem) : Bool := it.index.isSome && it.data.isSome

/-- All fields that `verify_signature`'s paths read from the response. -/
def respFieldsPresent (r : WorkOrderResponse) : Bool :=
  r.workerNonce.isSome && r.workerSignature.isSome && r.workOrderId.isSome &&
  r.workerId.isSome && r.requesterId.isSome &&
  (match r.outData with
   | some od => od.all itemPresent
   | none => false) &&
  (!r.extVerificationKey.isSome || r.extVerificationKeySignature.isSome)

def updFieldsPresent (ru : ReceiptUpdate) : Bool :=
  ru.workOrderId.isSome && ru.updateType.isSome && ru.updateData.isSome &&
  ru.updateSignature.isSome && ru.receiptVerificationKey.isSome

def createFieldsPresent (rc : ReceiptCreateRequest) : Bool :=
  match rc.params with
  | none => false
  | some p =>
    p.workOrderId.isSome && p.workerServiceId.isSome && p.workerId.isSome &&
    p.requesterId.isSome && p.receiptCreateStatus.isSome && p.workOrderRequestHash.isSome &&
    p.requesterGeneratedNonce.isSome && p.requesterSignature.isSome &&
    p.receiptVerificationKey.isSome

def w3Item : DataItem := { index := some 0, data := some (ascii ("d0")) }

/-- A response with every field the two-step path reads. -/
def w3Resp : WorkOrderResponse :=
  { workOrderId := some (ascii ("wo1")), workerId := some (ascii ("w1")),
    requesterId := some (ascii ("r1")), workerNonce := some (ascii ("nn")),
    workerSignature := some (ascii ("sg")), outData := some [w3Item],
    extVerificationKey := some (ascii ("EK")),
    extVerificationKeySignature := some (ascii ("ES")) }

def w3Upd : ReceiptUpdate :=
  { workOrderId := some (ascii ("wo1")), updateType := some 2,
    updateData := some (ascii ("ud")), updateSignature := some (ascii ("us")),
    receiptVerificationKey := some (ascii ("vk")) }

def w3Create : ReceiptCreateRequest :=
  { params := some
      { workOrderId := some (ascii ("wo1")), workerServiceId := some (ascii ("ws")),
        workerId := some (ascii ("w1")), requesterId := some (ascii ("r1")),
        receiptCreateStatus := some 0, workOrderRequestHash := some (ascii ("wh")),
        requesterGeneratedNonce := some (ascii ("gn")),
        requesterSignature := some (ascii ("rs")),
        receiptVerificationKey := some (ascii ("vk")) } }

def c5Item : DataItem :=
  { index := some 0, data := some (ascii ("abc")),
    encryptedDataEncryptionKey := some (ascii ("-")) }

def c5Params : Params :=
  { requesterNonce := some (ascii ("zz")), workOrderId := some (ascii ("wo1")),
    workerId := some (ascii ("w1")), requesterId := some (ascii ("r1")),
    inData := some [c5Item] }

def c5Req : WorkOrderRequest := { params := some c5Params }

def c5Worker : Worker :=
  { hashing_algorithm := "SHA-256", signing_algorithm := "SECP256K1", encryption_key := [] }

def c5Tcs : TcsConfig := { HashingAlgorithm := "SHA-256", SigningAlgorithm := "SECP256K1" }

/-- The params dictionary as the nonce-failure path actually returns it:
`sessionKeyIv` inserted and the item's `data` base64-replaced. -/
def c5Mut : Params :=
  { c5Params with
      sessionKeyIv := some (hexEncode (ascii ("SV"))),
      inData := some [{ c5Item with data := some (base64Encode (ascii ("abc"))) }] }

def w5Params : Params :=
  { requesterNonce := some [], workOrderId := some (ascii ("wo1")),
    workerId := some (ascii ("w1")), requesterId := some (ascii ("r1")),
    inData := some [c5Item] }

def w5Req : WorkOrderRequest := { params := some w5Params }

/- ## Model validation -/
/-- Validation of the SHA-256 model against the standard `"abc"` test
vector. -/
theorem sha256_abc_test_vector : sha256 (ascii ("abc")) =
    [0xba, 0x78, 0x16, 0xbf, 0x8f, 0x01, 0xcf, 0xea, 0x41, 0x41, 0x40, 0xde, 0x5d, 0xae, 0x22, 0x23,
     0xb0, 0x03, 0x61, 0xa3, 0x96, 0x17, 0x7a, 0x9c, 0xb4, 0x10, 0xff, 0x61, 0xf2, 0x00, 0x15, 0xad] := by
  decide
/-- Validation of the base64 model on the three padding shapes, and of the
hex codec. -/
theorem base64_hex_test_vectors :
    base64Encode (ascii ("abc")) = ascii ("YWJj") ∧
    base64Encode (ascii ("a")) = ascii ("YQ==") ∧
    base64Encode (ascii ("ab")) = ascii ("YWI=") ∧
    hexEncode [0, 15, 255] = ascii ("000fff") := by
  refine ⟨by decide, by decide, by decide, by decide⟩
/- ## Helper lemmas -/
theorem datahashLoop_eq_perItemHashes (l : List (Int × DataItem)) (acc : Bytes) :
    datahashLoop l acc =
      match perItemHashes l with
      | Except.error e => Except.error e
      | Except.ok hs => Except.ok (acc ++ hs.flatten) := by
  induction l generalizing acc with
  | nil => simp [datahashLoop, perItemHashes]
  | cons p rest ih =>
    cases hc : itemChunk p.2 with
    | error e => simp only [datahashLoop, perItemHashes, perItemHash, hc]
    | ok c =>
      simp only [datahashLoop, perItemHashes, perItemHash, hc, ih]
      cases perItemHashes rest with
      | error e => rfl
      | ok hs => simp [List.append_assoc]
theorem base64Encode_length : ∀ l : Bytes, (base64Encode l).length = 4 * ((l.length + 2) / 3)
  | [] => by simp [base64Encode]
  | [_] => by simp [base64Encode]
  | [_, _] => by simp [base64Encode]
  | _ :: _ :: _ :: rest => by
    simp only [base64Encode, List.length_append, List.length_cons, List.length_nil,
      base64Encode_length rest]
    omega
theorem compressBlock_length (hs : List Nat) (b : Bytes) : (compressBlock hs b).length = 8 := rfl
theorem foldl_compressBlock_length (bs : List Bytes) (hs : List Nat) (h : hs.length = 8) :
    (bs.foldl compressBlock hs).length = 8 := by
  induction bs generalizing hs with
  | nil => simpa using h
  | cons b rest ih => exact ih _ (compressBlock_length _ _)
theorem foldr_wordBytes_length (l : List Nat) :
    (l.foldr (fun w acc => wordBytes w ++ acc) []).length = 4 * l.length := by
  induction l with
  | nil => rfl
  | cons w rest ih =>
    simp only [List.foldr_cons, List.length_append, ih]
    simp only [wordBytes, List.length_cons, List.length_nil]
    omega
theorem sha256_length (m : Bytes) : (sha256 m).length = 32 := by
  unfold sha256
  rw [foldr_wordBytes_length, foldl_compressBlock_length _ H256 rfl]
theorem base64_sha256_length (c : Bytes) : (base64Encode (sha256 c)).length = 44 := by
  rw [base64Encode_length, sha256_length]
theorem perItemHashes_ok_shape {l : List (Int × DataItem)} {hs : List Bytes}
    (h : perItemHashes l = Except.ok hs) :
    hs.length = l.length ∧ ∀ hb ∈ hs, hb.length = 44 := by
  induction l generalizing hs with
  | nil =>
    simp only [perItemHashes] at h
    cases h
    simp
  | cons p rest ih =>
    simp only [perItemHashes, perItemHash] at h
    cases hc : itemChunk p.2 with
    | error e => rw [hc] at h; cases h
    | ok c =>
      rw [hc] at h
      cases hr : perItemHashes rest with
      | error e => rw [hr] at h; cases h
      | ok hs2 =>
        rw [hr] at h
        cases h
        obtain ⟨hlen, hall⟩ := ih hr
        refine ⟨by simp [hlen], ?_⟩
        intro hb hmem
        rcases List.mem_cons.mp hmem with h1 | h2
        · rw [h1]; exact base64_sha256_length c
        · exact hall hb h2
theorem flatten_length_of_all44 (hs : List Bytes) (h : ∀ hb ∈ hs, hb.length = 44) :
    hs.flatten.length = 44 * hs.length := by
  induction hs with
  | nil => rfl
  | cons hb rest ih =>
    simp only [List.flatten_cons, List.length_append, List.length_cons]
    rw [h hb (by simp), ih (fun x hx => h x (by simp [hx]))]
    ring
theorem extractKeyed_ok_length {l : List DataItem} {ks : List (Int × DataItem)}
    (h : extractKeyed l = Except.ok ks) : ks.length = l.length := by
  induction l generalizing ks with
  | nil => simp only [extractKeyed] at h; cases h; rfl
  | cons it rest ih =>
    simp only [extractKeyed] at h
    cases hi : it.index with
    | none => rw [hi] at h; cases h
    | some i =>
      rw [hi] at h
      cases hr : extractKeyed rest with
      | error e => rw [hr] at h; cases h
      | ok ks2 => rw [hr] at h; cases h; simp [ih hr]
/- ## Claim C1 -/
/-- C1: `calculate_datahash` sorts the items ascending by `index`, hashes
for each item in sorted order the concatenation
`dataHash(or empty) ++ data ++ encryptedDataEncryptionKey(or empty) ++ iv(or empty)`,
base64-encodes each per-item digest, and returns the concatenation of the
base64 strings — per-item digests, not a single hash over all items: the
result equals the claim-side rendering `calculate_datahash_spec`, and a
successful result is `44 * n` base64 characters for `n` items, not a
single 44-character digest. -/
theorem calculate_datahash_refines_spec (data_objects : List DataItem) :
    calculate_datahash data_objects = calculate_datahash_spec data_objects ∧
    ∀ r, calculate_datahash data_objects = Except.ok r →
      r.length = 44 * data_objects.length := by
  have hmain : calculate_datahash data_objects = calculate_datahash_spec data_objects := by
    cases hk : extractKeyed data_objects with
    | error e => simp only [calculate_datahash, calculate_datahash_spec, hk]
    | ok keyed =>
      simp only [calculate_datahash, calculate_datahash_spec, hk,
        datahashLoop_eq_perItemHashes]
      cases perItemHashes (List.insertionSort (fun a b => a.1 ≤ b.1) keyed) with
      | error e => rfl
      | ok hs => simp
  refine ⟨hmain, ?_⟩
  intro r hr
  rw [hmain] at hr
  cases hk : extractKeyed data_objects with
  | error e => simp [calculate_datahash_spec, hk] at hr
  | ok keyed =>
    simp only [calculate_datahash_spec, hk] at hr
    cases hp : perItemHashes (List.insertionSort (fun a b => a.1 ≤ b.1) keyed) with
    | error e => simp [hp] at hr
    | ok hs =>
      simp only [hp, Except.ok.injEq] at hr
      subst hr
      obtain ⟨hlen, hall⟩ := perItemHashes_ok_shape hp
      rw [flatten_length_of_all44 hs hall, hlen,
        List.length_insertionSort, extractKeyed_ok_length hk]
set_option maxRecDepth 100000 in
/-- C1 witness: the theorem applied to a concrete two-item list, with the
hypothesis of the length conjunct discharged at the concrete result. -/
theorem calculate_datahash_refines_spec_witness :
    calculate_datahash demoItems = calculate_datahash_spec demoItems ∧
    demoRes.length = 44 * demoItems.length :=
  ⟨(calculate_datahash_refines_spec demoItems).1,
   (calculate_datahash_refines_spec demoItems).2 demoRes (by decide)⟩
/- ## Claim C6 -/
/-- Two permuted key-item lists with pairwise-distinct keys have the same
insertion sort: both sorts are sorted, are permutations of each other, and
distinct keys make the (weak) sortedness strict, which pins the order. -/
theorem insertionSort_keyed_eq_of_perm {l1 l2 : List (Int × DataItem)}
    (hp : l1.Perm l2) (hnd : (l1.map Prod.fst).Nodup) :
    List.insertionSort (fun a b => a.1 ≤ b.1) l1 =
      List.insertionSort (fun a b => a.1 ≤ b.1) l2 := by
  have p1 := List.perm_insertionSort (fun a b => a.1 ≤ b.1) l1
  have p2 := List.perm_insertionSort (fun a b => a.1 ≤ b.1) l2
  have s1 := List.sorted_insertionSort (fun a b => a.1 ≤ b.1) l1
  have s2 := List.sorted_insertionSort (fun a b => a.1 ≤ b.1) l2
  have hperm := p1.trans (hp.trans p2.symm)
  have hnd1 : ((List.insertionSort (fun a b => a.1 ≤ b.1) l1).map Prod.fst).Nodup :=
    ((p1.map Prod.fst).nodup_iff).mpr hnd
  have hnd2 : ((List.insertionSort (fun a b => a.1 ≤ b.1) l2).map Prod.fst).Nodup :=
    ((p2.map Prod.fst).nodup_iff).mpr (((hp.map Prod.fst).nodup_iff).mp hnd)
  have slt1 : (List.insertionSort (fun a b => a.1 ≤ b.1) l1).Sorted (fun a b => a.1 < b.1) :=
    (s1.and (List.pairwise_map.mp hnd1)).imp fun h => lt_of_le_of_ne h.1 h.2
  have slt2 : (List.insertionSort (fun a b => a.1 ≤ b.1) l2).Sorted (fun a b => a.1 < b.1) :=
    (s2.and (List.pairwise_map.mp hnd2)).imp fun h => lt_of_le_of_ne h.1 h.2
  exact List.eq_of_perm_of_sorted hperm slt1 slt2
/-- When every item carries an `index`, `extractKeyed` succeeds and pairs
each item with its index. -/
theorem extractKeyed_all_some {l : List DataItem} (h : ∀ it ∈ l, it.index ≠ none) :
    extractKeyed l = Except.ok (l.map fun it => (it.index.getD 0, it)) := by
  induction l with
  | nil => rfl
  | cons it rest ih =>
    obtain ⟨i, hi⟩ := Option.ne_none_iff_exists'.mp (h it (by simp))
    simp only [extractKeyed, hi, ih (fun x hx => h x (by simp [hx])), List.map_cons,
      Option.getD_some]
/-- C6 (corrected): `calculate_datahash` is invariant under permutations of
the input when the items carry pairwise-distinct `index` values (for
duplicate indices, the stable sort preserves the input order, so the claim
fails there — see the counterexample); and changing the `data`,
`encryptedDataEncryptionKey`, or `iv` of an item changes the per-item byte
string that is hashed.  Changing only an `index` need not change the
result, because the index is not part of the hashed bytes. -/
theorem calculate_datahash_perm_invariant_and_field_sensitive
    (l1 l2 : List DataItem) (hp : l1.Perm l2)
    (hidx : ∀ it ∈ l1, it.index ≠ none)
    (hnd : (l1.map DataItem.index).Nodup) :
    calculate_datahash l1 = calculate_datahash l2 ∧
    (∀ (i : Option Int) (dh d d' ek iv0 : Bytes), d ≠ d' →
      itemChunk { index := i, data := some d, dataHash := some dh,
                  encryptedDataEncryptionKey := some ek, iv := some iv0 } ≠
      itemChunk { index := i, data := some d', dataHash := some dh,
                  encryptedDataEncryptionKey := some ek, iv := some iv0 }) ∧
    (∀ (i : Option Int) (dh d ek ek' iv0 : Bytes), ek ≠ ek' →
      itemChunk { index := i, data := some d, dataHash := some dh,
                  encryptedDataEncryptionKey := some ek, iv := some iv0 } ≠
      itemChunk { index := i, data := some d, dataHash := some dh,
                  encryptedDataEncryptionKey := some ek', iv := some iv0 }) ∧
    (∀ (i : Option Int) (dh d ek iv0 iv1 : Bytes), iv0 ≠ iv1 →
      itemChunk { index := i, data := some d, dataHash := some dh,
                  encryptedDataEncryptionKey := some ek, iv := some iv0 } ≠
      itemChunk { index := i, data := some d, dataHash := some dh,
                  encryptedDataEncryptionKey := some ek, iv := some iv1 }) := by
  refine ⟨?_, ?_, ?_, ?_⟩
  · have hidx2 : ∀ it ∈ l2, it.index ≠ none := fun it hit => hidx it (hp.mem_iff.mpr hit)
    simp only [calculate_datahash, extractKeyed_all_some hidx,
      extractKeyed_all_some hidx2]
    have hkeys : ((l1.map fun it => (it.index.getD 0, it)).map Prod.fst).Nodup := by
      rw [List.map_map]
      have : l1.map (Prod.fst ∘ fun it => (it.index.getD 0, it)) =
          l1.map fun it => it.index.getD 0 := List.map_congr_left fun _ _ => rfl
      rw [this]
      have hsome : l1.map DataItem.index = (l1.map fun it => it.index.getD 0).map some := by
        rw [List.map_map]
        refine List.map_congr_left fun it hit => ?_
        obtain ⟨i, hi⟩ := Option.ne_none_iff_exists'.mp (hidx it hit)
        simp [hi]
      rw [hsome] at hnd
      exact hnd.of_map
    rw [insertionSort_keyed_eq_of_perm (hp.map fun it => (it.index.getD 0, it)) hkeys]
  · intro i dh d d' ek iv0 hne heq
    simp only [itemChunk, lookupKey, Except.bind, Except.ok.injEq] at heq
    exact hne (List.append_cancel_left
      (List.append_cancel_right (List.append_cancel_right heq)))
  · intro i dh d ek ek' iv0 hne heq
    simp only [itemChunk, lookupKey, Except.bind, Except.ok.injEq] at heq
    exact hne (List.append_cancel_left (List.append_cancel_right heq))
  · intro i dh d ek iv0 iv1 hne heq
    simp only [itemChunk, lookupKey, Except.bind, Except.ok.injEq] at heq
    exact hne (List.append_cancel_left heq)
set_option maxRecDepth 100000 in
/-- C6 counterexample: the claim as stated fails twice.  A permutation of
items with equal indices changes the result, so the result is not invariant
under every permutation; and changing only an item's `index` (5 to 7) leaves
the result unchanged, so the result is not sensitive to every single-field
change among index/data/encryptedDataEncryptionKey/iv. -/
theorem calculate_datahash_claim_counterexample :
    ([cItemX, cItemY] : List DataItem).Perm [cItemY, cItemX] ∧
    calculate_datahash [cItemX, cItemY] ≠ calculate_datahash [cItemY, cItemX] ∧
    cItem5.index ≠ cItem7.index ∧
    calculate_datahash [cItem5] = calculate_datahash [cItem7] := by
  refine ⟨by decide, by decide, by decide, by decide⟩
set_option maxRecDepth 100000 in
/-- C6 witness: the theorem applied to concrete permuted lists with distinct
indices, and to concrete distinct field values. -/
theorem calculate_datahash_perm_invariant_witness :
    calculate_datahash [wItem1, wItem2] = calculate_datahash [wItem2, wItem1] ∧
    itemChunk { index := some 0, data := some (ascii ("a")), dataHash := some (ascii ("h")),
                encryptedDataEncryptionKey := some (ascii ("k")), iv := some (ascii ("v")) } ≠
    itemChunk { index := some 0, data := some (ascii ("b")), dataHash := some (ascii ("h")),
                encryptedDataEncryptionKey := some (ascii ("k")), iv := some (ascii ("v")) } :=
  ⟨(calculate_datahash_perm_invariant_and_field_sensitive [wItem1, wItem2] [wItem2, wItem1]
      (by decide) (by decide) (by decide)).1,
   (calculate_datahash_perm_invariant_and_field_sensitive [wItem1, wItem2] [wItem2, wItem1]
      (by decide) (by decide) (by decide)).2.1 (some 0) (ascii ("h")) (ascii ("a")) (ascii ("b"))
      (ascii ("k")) (ascii ("v")) (by decide)⟩
/- ## Claim C2 -/
/-- The verification-key-assertion check reads only the two
`extVerificationKey*` fields of the response (besides the key and nonce
arguments). -/
theorem verify_wo_verification_key_signature_frame (cp : CryptoPrims)
    (resp resp2 : WorkOrderResponse) (key : Bytes) (nonce : Option Bytes)
    (h1 : resp2.extVerificationKey = resp.extVerificationKey)
    (h2 : resp2.extVerificationKeySignature = resp.extVerificationKeySignature) :
    verify_wo_verification_key_signature cp resp2 key nonce =
      verify_wo_verification_key_signature cp resp key nonce := by
  simp only [verify_wo_verification_key_signature, h1, h2]
/-- C2: in the two-step path (`extVerificationKey` present), a `None`
`requester_nonce` yields FAILED before any cryptographic operation runs
(for every choice of the cryptographic primitives); and when step 1
returns a status other than PASSED, `verify_signature` returns exactly
that status without invoking step 2 — the result does not depend on any
response field step 2 would read (`workerNonce`, `workerSignature`,
`outData`, header fields), only on the two `extVerificationKey*`
fields. -/
theorem verify_signature_two_step_short_circuit (cp : CryptoPrims)
    (resp resp2 : WorkOrderResponse) (key : Bytes) (requester_nonce : Option Bytes)
    (s : SignatureStatus) (evk : Bytes)
    (hext : resp.extVerificationKey = some evk) :
    verify_signature cp resp key none = Except.ok SignatureStatus.FAILED ∧
    (verify_wo_verification_key_signature cp resp key requester_nonce = Except.ok s →
      s ≠ SignatureStatus.PASSED →
      resp2.extVerificationKey = resp.extVerificationKey →
      resp2.extVerificationKeySignature = resp.extVerificationKeySignature →
      verify_signature cp resp2 key requester_nonce = Except.ok s) := by
  constructor
  · simp [verify_signature, hext, verify_wo_verification_key_signature, Except.bind]
  · intro hstep hne h1 h2
    have hframe := verify_wo_verification_key_signature_frame cp resp resp2 key
      requester_nonce h1 h2
    have hext2 : resp2.extVerificationKey = some evk := h1.trans hext
    simp only [verify_signature, hext2, hframe, hstep, Except.bind, if_neg hne]
set_option maxRecDepth 100000 in
/-- C2 witness: the theorem applied with the failing-verifier primitives at
a concrete response; step 1 concretely returns FAILED and the overall result
is FAILED even on a response whose step-2 fields differ. -/
theorem verify_signature_two_step_short_circuit_witness :
    verify_signature failVerifyPrims c2Resp [1] none = Except.ok SignatureStatus.FAILED ∧
    verify_signature failVerifyPrims c2Resp2 [1] (some (ascii ("aa"))) =
      Except.ok SignatureStatus.FAILED :=
  ⟨(verify_signature_two_step_short_circuit failVerifyPrims c2Resp c2Resp2 [1]
      (some (ascii ("aa"))) SignatureStatus.FAILED (ascii ("EK")) (by decide)).1,
   (verify_signature_two_step_short_circuit failVerifyPrims c2Resp c2Resp2 [1]
      (some (ascii ("aa"))) SignatureStatus.FAILED (ascii ("EK")) (by decide)).2
      (by decide) (by decide) (by decide) (by decide)⟩
/- ## Claim C10 -/
/-- C10: an item whose `encryptedDataEncryptionKey` is the literal string
`"null"` is encrypted with the session key and session IV — exactly the
treatment of an empty value: the replaced `data` is byte-for-byte the one
an otherwise-identical item with an empty key receives. -/
theorem encrypt_indata_null_key_uses_session_key (cp : CryptoPrims)
    (session_key session_iv wek : Bytes) (data_key data_iv : Option Bytes)
    (item : DataItem) (d : Bytes)
    (hd : item.data = some d)
    (hk : item.encryptedDataEncryptionKey = some (ascii ("null"))) :
    encryptIndataLoop cp session_key session_iv wek data_key data_iv [item] =
      Except.ok [{ item with data := some (base64Encode (cp.encrypt_data d (some session_key) (some session_iv))) }] ∧
    (encryptIndataLoop cp session_key session_iv wek data_key data_iv [item]).map
        (List.map DataItem.data) =
      (encryptIndataLoop cp session_key session_iv wek data_key data_iv
        [{ item with encryptedDataEncryptionKey := some [] }]).map
        (List.map DataItem.data) := by
  constructor
  · simp [encryptIndataLoop, hd, hk, lookupKey, Except.bind]
  · simp [encryptIndataLoop, hd, hk, lookupKey, Except.bind, Except.map]
/-- C10 witness: the theorem applied to a concrete item with the `"null"`
sentinel and the concrete test primitives. -/
theorem encrypt_indata_null_key_uses_session_key_witness :
    encryptIndataLoop testPrims (ascii ("SK")) (ascii ("SV")) [] (some (ascii ("DK")))
        (some (ascii ("DV"))) [c10Item] =
      Except.ok [{ c10Item with data := some (base64Encode (testPrims.encrypt_data (ascii ("pt")) (some (ascii ("SK"))) (some (ascii ("SV"))))) }] ∧
    (encryptIndataLoop testPrims (ascii ("SK")) (ascii ("SV")) [] (some (ascii ("DK")))
        (some (ascii ("DV"))) [c10Item]).map (List.map DataItem.data) =
      (encryptIndataLoop testPrims (ascii ("SK")) (ascii ("SV")) [] (some (ascii ("DK")))
        (some (ascii ("DV"))) [{ c10Item with encryptedDataEncryptionKey := some [] }]).map
        (List.map DataItem.data) :=
  encrypt_indata_null_key_uses_session_key testPrims (ascii ("SK")) (ascii ("SV")) []
    (some (ascii ("DK"))) (some (ascii ("DV"))) c10Item (ascii ("pt")) (by decide) (by decide)
/- ## Claim C4 -/
/-- C4 (amended): when every item carries its `data` and
`encryptedDataEncryptionKey` fields, `__encrypt_workorder_indata` replaces
each item's `data` in place with the base64-encoded result selected by the
key-sharing mode, preserving the order of items and every other field
(including `index`); when the `encryptedDataEncryptionKey` field is absent
the operation raises `KeyError` instead of using the session key (see the
counterexample). -/
theorem encrypt_workorder_indata_mode_selection (cp : CryptoPrims)
    (session_key session_iv wek : Bytes) (data_key data_iv : Option Bytes)
    (l : List DataItem)
    (h : ∀ it ∈ l, it.data.isSome ∧ it.encryptedDataEncryptionKey.isSome) :
    encryptIndataLoop cp session_key session_iv wek data_key data_iv l =
      Except.ok (l.map fun it =>
        { it with data := some (encryptItemSpecData cp session_key session_iv data_key data_iv (it.data.getD []) (it.encryptedDataEncryptionKey.getD [])) }) := by
  induction l with
  | nil => rfl
  | cons item rest ih =>
    obtain ⟨hd, hk⟩ := h item (by simp)
    obtain ⟨d, hd'⟩ := Option.isSome_iff_exists.mp hd
    obtain ⟨ek, hk'⟩ := Option.isSome_iff_exists.mp hk
    rw [List.map_cons]
    simp only [encryptIndataLoop, hd', hk', lookupKey, Except.bind,
      ih (fun it hit => h it (by simp [hit])), encryptItemSpecData, Option.getD_some]
/-- C4 counterexample: the claim fails twice on the code.  An item whose
`encryptedDataEncryptionKey` is `"null"` — a value that is neither empty,
absent, nor `"-"` — is encrypted with the session key, not with the
per-item data key (the two ciphertexts differ under the concrete test
primitives); and an item with the field absent raises `KeyError` instead of
being encrypted with the session key. -/
theorem encrypt_workorder_indata_claim_counterexample :
    encryptIndataLoop testPrims (ascii ("SK")) (ascii ("SV")) [] (some (ascii ("DK")))
        (some (ascii ("DV"))) [c4NullItem] =
      Except.ok [{ c4NullItem with data := some (base64Encode (ascii ("SKSVpt"))) }] ∧
    base64Encode (ascii ("SKSVpt")) ≠
      base64Encode (testPrims.encrypt_data (ascii ("pt")) (some (ascii ("DK"))) (some (ascii ("DV")))) ∧
    encryptIndataLoop testPrims (ascii ("SK")) (ascii ("SV")) [] (some (ascii ("DK")))
        (some (ascii ("DV"))) [c4AbsentItem] =
      Except.error (PyErr.keyError ("encryptedDataEncryptionKey")) := by
  refine ⟨by decide, by decide, by decide⟩
/-- C4 witness: the amended theorem applied to a concrete three-item list
covering the three modes. -/
theorem encrypt_workorder_indata_mode_selection_witness :
    encryptIndataLoop testPrims (ascii ("SK")) (ascii ("SV")) [] (some (ascii ("DK")))
        (some (ascii ("DV"))) c4ModeItems =
      Except.ok (c4ModeItems.map fun it =>
        { it with data := some (encryptItemSpecData testPrims (ascii ("SK")) (ascii ("SV")) (some (ascii ("DK"))) (some (ascii ("DV"))) (it.data.getD []) (it.encryptedDataEncryptionKey.getD [])) }) :=
  encrypt_workorder_indata_mode_selection testPrims (ascii ("SK")) (ascii ("SV")) []
    (some (ascii ("DK"))) (some (ascii ("DV"))) c4ModeItems (by decide)
/- ## Claim C8 -/
/-- C8: `generate_signature` is deterministic across invocations: its
returned `(status, signature)` pair does not depend on the signer object's
instance state, so two independent invocations with the same digest and the
same private key produce byte-identical base64 DER signatures.  The
underlying primitive is the `ecdsa` library's `sign_digest_deterministic`
(RFC 6979 deterministic ECDSA), modelled as a pure function of the key and
digest; `generate_signature` draws no other input. -/
theorem generate_signature_deterministic (cp : CryptoPrims) (s1 s2 : SigState)
    (hash : Bytes) (private_key : Nat) :
    (generate_signature cp s1 hash private_key).2 =
      (generate_signature cp s2 hash private_key).2 := by
  unfold generate_signature
  cases cp.get_verifying_key private_key with
  | error e => rfl
  | ok pub => rfl
/- ## Claim C9 -/
/-- C9 counterexample: the signing operation stores key material on the
signer object and does not return the public key alongside the signature.
Starting from the freshly initialized state (both fields `None`), a call
leaves `self.private_key = 5` and `self.public_key = [80, 5]` — mutated
instance state — while the returned pair `(True, signature)` carries no
public key; the caller reads it from the mutated state. -/
theorem generate_signature_state_counterexample :
    generate_signature testPrims {} [1, 2] 5 =
      ({ private_key := some 5, public_key := some [80, 5] }, true,
        some (base64Encode [5, 1, 2])) ∧
    ({ private_key := some 5, public_key := some [80, 5] } : SigState) ≠ {} := by
  refine ⟨by decide, by decide⟩
/-- C9 (amended): `generate_signature` receives the private key as an
explicit per-call parameter, but it stores the private key and the derived
public key as mutable instance state (`self.private_key`,
`self.public_key`) and returns only `(status, signature)`; the public key
is conveyed to callers through the mutated instance state, not through the
return value. -/
theorem generate_signature_stores_keys (cp : CryptoPrims) (selfSt : SigState)
    (hash : Bytes) (private_key : Nat) (pub sg : Bytes)
    (hvk : cp.get_verifying_key private_key = Except.ok pub)
    (hsg : cp.sign_digest_deterministic private_key hash = Except.ok sg) :
    generate_signature cp selfSt hash private_key =
      ({ private_key := some private_key, public_key := some pub }, true,
        some (base64Encode sg)) := by
  simp only [generate_signature, hvk, hsg]
/-- C9 witness: the amended theorem applied at the concrete test
primitives. -/
theorem generate_signature_stores_keys_witness :
    generate_signature testPrims { private_key := none, public_key := some [9] } [3] 7 =
      ({ private_key := some 7, public_key := some [80, 7] }, true,
        some (base64Encode [7, 3])) :=
  generate_signature_stores_keys testPrims { private_key := none, public_key := some [9] }
    [3] 7 [80, 7] [7, 3] (by decide) (by decide)
/- ## Claim C7 -/
set_option maxRecDepth 100000 in
/-- C7: evaluation at the failing input.  `__calculate_hash_on_concatenated_string`
treats a missing `workloadId` as the empty string and succeeds, but
`calculate_request_hash` reads `params["workloadId"]` without a default and
raises `KeyError('workloadId')` on the same payload, contradicting the
claim (and leaving the two implementations of the same EEA 6.1.8.1 header
hash inconsistent). -/
theorem calculate_request_hash_missing_workloadId :
    calculate_request_hash c7Req = Except.error (PyErr.keyError ("workloadId")) ∧
    calculate_hash_on_concatenated_string c7Params.headerView (ascii ("aa")) =
      Except.ok (base64Encode (sha256 (ascii ("aawo1w1r1")))) ∧
    c7Params.workloadId = none := by
  refine ⟨by decide, by decide, rfl⟩
/- ## Claim C3 -/
theorem datahashLoop_ok {ks : List (Int × DataItem)}
    (h : ∀ p ∈ ks, p.2.data.isSome) (acc : Bytes) :
    ∃ r, datahashLoop ks acc = Except.ok r := by
  induction ks generalizing acc with
  | nil => exact ⟨acc, rfl⟩
  | cons p rest ih =>
    obtain ⟨d, hd⟩ := Option.isSome_iff_exists.mp (h p (by simp))
    obtain ⟨r, hr⟩ := ih (fun q hq => h q (by simp [hq]))
      (acc ++ base64Encode (sha256 (p.2.dataHash.getD [] ++ d ++
        p.2.encryptedDataEncryptionKey.getD [] ++ p.2.iv.getD [])))
    exact ⟨r, by simp only [datahashLoop, itemChunk, hd, lookupKey, Except.bind, hr]⟩
theorem calculate_datahash_ok {l : List DataItem}
    (h : ∀ it ∈ l, it.index.isSome ∧ it.data.isSome) :
    ∃ r, calculate_datahash l = Except.ok r := by
  have hidx : ∀ it ∈ l, it.index ≠ none :=
    fun it hit => Option.isSome_iff_ne_none.mp (h it hit).1
  have hks : ∀ p ∈ List.insertionSort (fun a b => a.1 ≤ b.1)
      (l.map fun it => (it.index.getD 0, it)), p.2.data.isSome := by
    intro p hp
    have hmem := (List.perm_insertionSort (fun (a b : Int × DataItem) => a.1 ≤ b.1)
      (l.map fun it => (it.index.getD 0, it))).mem_iff.mp hp
    obtain ⟨it, hit, heq⟩ := List.mem_map.mp hmem
    rw [← heq]
    exact (h it hit).2
  obtain ⟨r, hr⟩ := datahashLoop_ok hks []
  exact ⟨r, by simp only [calculate_datahash, extractKeyed_all_some hidx, hr]⟩
theorem calculate_hash_on_concatenated_string_ok (hv : HeaderView) (nonce : Bytes)
    (h1 : hv.workOrderId.isSome) (h2 : hv.workerId.isSome) (h3 : hv.requesterId.isSome) :
    ∃ r, calculate_hash_on_concatenated_string hv nonce = Except.ok r := by
  obtain ⟨wo, hwo⟩ := Option.isSome_iff_exists.mp h1
  obtain ⟨wk, hwk⟩ := Option.isSome_iff_exists.mp h2
  obtain ⟨rq, hrq⟩ := Option.isSome_iff_exists.mp h3
  exact ⟨base64Encode (sha256 (nonce ++ wo ++ wk ++ hv.workloadId.getD [] ++ rq)),
    by simp only [calculate_hash_on_concatenated_string, hwo, hwk, hrq,
      lookupKey, Except.bind]⟩
theorem verify_wo_response_signature_ok (cp : CryptoPrims) (r : WorkOrderResponse)
    (key : Bytes)
    (hdec : ∀ s, ∃ d, cp.base64_to_byte_array s = Except.ok d)
    (hf : respFieldsPresent r = true) :
    ∃ st, verify_wo_response_signature cp r key = Except.ok st := by
  simp only [respFieldsPresent, Bool.and_eq_true] at hf
  obtain ⟨⟨⟨⟨⟨⟨hn, hs⟩, hwo⟩, hwk⟩, hrq⟩, hod⟩, _⟩ := hf
  obtain ⟨nonce, hn'⟩ := Option.isSome_iff_exists.mp hn
  obtain ⟨sg, hs'⟩ := Option.isSome_iff_exists.mp hs
  cases hodv : r.outData with
  | none => simp only [hodv] at hod; exact absurd hod (by decide)
  | some od =>
    simp only [hodv] at hod
    have hitems : ∀ it ∈ od, it.index.isSome ∧ it.data.isSome := by
      intro it hit
      have hx := List.all_eq_true.mp hod it hit
      simp only [itemPresent, Bool.and_eq_true] at hx
      exact hx
    obtain ⟨h1, hh1⟩ := calculate_hash_on_concatenated_string_ok
      r.headerView nonce hwo hwk hrq
    obtain ⟨h2, hh2⟩ := calculate_datahash_ok hitems
    obtain ⟨dsig, hdsig⟩ := hdec sg
    cases hpem : cp.from_pem key with
    | error e =>
      exact ⟨SignatureStatus.INVALID_VERIFICATION_KEY, by
        simp only [verify_wo_response_signature, hn', hs', lookupKey, Except.bind,
          hh1, hodv, hh2, hpem]⟩
    | ok vk =>
      exact ⟨statusOfVerify (cp.verify_digest vk dsig (sha256 (h1 ++ h2))), by
        simp only [verify_wo_response_signature, hn', hs', lookupKey, Except.bind,
          hh1, hodv, hh2, hpem, hdsig]⟩
theorem verify_wo_verification_key_signature_ok (cp : CryptoPrims)
    (r : WorkOrderResponse) (key : Bytes) (nonce : Option Bytes)
    (hdec : ∀ s, ∃ d, cp.base64_to_byte_array s = Except.ok d)
    (hext : r.extVerificationKey.isSome)
    (hsig : r.extVerificationKeySignature.isSome) :
    ∃ st, verify_wo_verification_key_signature cp r key nonce = Except.ok st := by
  cases nonce with
  | none => exact ⟨SignatureStatus.FAILED, rfl⟩
  | some nn =>
    obtain ⟨evk, hevk⟩ := Option.isSome_iff_exists.mp hext
    obtain ⟨vs, hvs⟩ := Option.isSome_iff_exists.mp hsig
    obtain ⟨dsig, hdsig⟩ := hdec vs
    cases hpem : cp.from_pem key with
    | error e =>
      exact ⟨SignatureStatus.INVALID_VERIFICATION_KEY, by
        simp only [verify_wo_verification_key_signature, hevk, hvs, lookupKey,
          Except.bind, hpem]⟩
    | ok vk =>
      exact ⟨statusOfVerify (cp.verify_digest vk dsig (sha256 (evk ++ nn))), by
        simp only [verify_wo_verification_key_signature, hevk, hvs, lookupKey,
          Except.bind, hpem, hdsig]⟩
/-- C3 (amended): when a verification payload contains every field the
operation reads and the base64 decoding of signatures succeeds, each of
`verify_signature`, `verify_update_receipt_signature` and
`verify_create_receipt_signature` returns a `SignatureStatus` (one of the
four enumerated values, the whole return type) and raises nothing.  For
payloads with missing fields the exception escapes — see the
counterexample. -/
theorem verification_ops_return_status (cp : CryptoPrims) (resp : WorkOrderResponse)
    (key : Bytes) (nonce : Option Bytes) (ru : ReceiptUpdate) (rc : ReceiptCreateRequest)
    (hdec : ∀ s, ∃ d, cp.base64_to_byte_array s = Except.ok d) :
    (respFieldsPresent resp = true →
      ∃ st, verify_signature cp resp key nonce = Except.ok st) ∧
    (updFieldsPresent ru = true →
      ∃ st, verify_update_receipt_signature cp ru = Except.ok st) ∧
    (createFieldsPresent rc = true →
      ∃ st, verify_create_receipt_signature cp rc = Except.ok st) := by
  refine ⟨?_, ?_, ?_⟩
  · intro hf
    cases hext : resp.extVerificationKey with
    | none =>
      obtain ⟨st, hst⟩ := verify_wo_response_signature_ok cp resp key hdec hf
      exact ⟨st, by simp only [verify_signature, hext, hst]⟩
    | some evk =>
      have hsig : resp.extVerificationKeySignature.isSome = true := by
        have hco : (!resp.extVerificationKey.isSome ||
            resp.extVerificationKeySignature.isSome) = true := by
          simp only [respFieldsPresent, Bool.and_eq_true] at hf
          exact hf.2
        simp only [hext, Option.isSome_some, Bool.not_true, Bool.false_or] at hco
        exact hco
      obtain ⟨st1, hst1⟩ := verify_wo_verification_key_signature_ok cp resp key nonce hdec
        (by simp [hext]) hsig
      by_cases hps : st1 = SignatureStatus.PASSED
      · obtain ⟨st2, hst2⟩ := verify_wo_response_signature_ok cp resp evk hdec hf
        exact ⟨st2, by
          simp only [verify_signature, hext, hst1, Except.bind, if_pos hps, lookupKey, hst2]⟩
      · exact ⟨st1, by
          simp only [verify_signature, hext, hst1, Except.bind, if_neg hps]⟩
  · intro hf
    simp only [updFieldsPresent, Bool.and_eq_true] at hf
    obtain ⟨⟨⟨⟨hwo, hty⟩, hud⟩, hus⟩, hvk⟩ := hf
    obtain ⟨wo, hwo'⟩ := Option.isSome_iff_exists.mp hwo
    obtain ⟨ty, hty'⟩ := Option.isSome_iff_exists.mp hty
    obtain ⟨ud, hud'⟩ := Option.isSome_iff_exists.mp hud
    obtain ⟨us, hus'⟩ := Option.isSome_iff_exists.mp hus
    obtain ⟨vkp, hvk'⟩ := Option.isSome_iff_exists.mp hvk
    obtain ⟨dsig, hdsig⟩ := hdec us
    cases hpem : cp.from_pem vkp with
    | error e =>
      exact ⟨SignatureStatus.INVALID_VERIFICATION_KEY, by
        simp only [verify_update_receipt_signature, hwo', hty', hud', hus', hvk',
          lookupKey, Except.bind, hpem]⟩
    | ok vk =>
      exact ⟨statusOfVerify (cp.verify_digest vk dsig (sha256 (wo ++ strOfInt ty ++ ud))), by
        simp only [verify_update_receipt_signature, hwo', hty', hud', hus', hvk',
          lookupKey, Except.bind, hpem, hdsig]⟩
  · intro hf
    cases hpv : rc.params with
    | none => simp only [createFieldsPresent, hpv] at hf; exact absurd hf (by decide)
    | some p =>
      simp only [createFieldsPresent, hpv, Bool.and_eq_true] at hf
      obtain ⟨⟨⟨⟨⟨⟨⟨⟨hwo, hws⟩, hwk⟩, hrq⟩, hcs⟩, hwh⟩, hgn⟩, hrs⟩, hvk⟩ := hf
      obtain ⟨wo, hwo'⟩ := Option.isSome_iff_exists.mp hwo
      obtain ⟨ws, hws'⟩ := Option.isSome_iff_exists.mp hws
      obtain ⟨wk, hwk'⟩ := Option.isSome_iff_exists.mp hwk
      obtain ⟨rq, hrq'⟩ := Option.isSome_iff_exists.mp hrq
      obtain ⟨cs, hcs'⟩ := Option.isSome_iff_exists.mp hcs
      obtain ⟨wh, hwh'⟩ := Option.isSome_iff_exists.mp hwh
      obtain ⟨gn, hgn'⟩ := Option.isSome_iff_exists.mp hgn
      obtain ⟨rs, hrs'⟩ := Option.isSome_iff_exists.mp hrs
      obtain ⟨vkp, hvk'⟩ := Option.isSome_iff_exists.mp hvk
      obtain ⟨dsig, hdsig⟩ := hdec rs
      cases hpem : cp.from_pem vkp with
      | error e =>
        exact ⟨SignatureStatus.INVALID_VERIFICATION_KEY, by
          simp only [verify_create_receipt_signature, hpv, hwo', hws', hwk', hrq', hcs',
            hwh', hgn', hrs', hvk', lookupKey, Except.bind, hpem]⟩
      | ok vk =>
        exact ⟨statusOfVerify (cp.verify_digest vk dsig
            (sha256 (wo ++ ws ++ wk ++ rq ++ strOfInt cs ++ wh ++ gn))), by
          simp only [verify_create_receipt_signature, hpv, hwo', hws', hwk', hrq', hcs',
            hwh', hgn', hrs', hvk', lookupKey, Except.bind, hpem, hdsig]⟩
set_option maxRecDepth 100000 in
/-- C3 counterexample: on payloads missing a field each public verification
operation raises an uncaught exception (`KeyError`) instead of returning one
of the four statuses, so the claim as universally stated is false. -/
theorem verification_ops_escape_counterexample :
    verify_signature testPrims {} [] none = Except.error (PyErr.keyError ("workerNonce")) ∧
    verify_update_receipt_signature testPrims {} =
      Except.error (PyErr.keyError ("workOrderId")) ∧
    verify_create_receipt_signature testPrims {} =
      Except.error (PyErr.keyError ("params")) := by
  refine ⟨by decide, by decide, by decide⟩
set_option maxRecDepth 1000000 in
/-- C3 witness: the amended theorem applied at concrete payloads carrying
all fields, with the always-succeeding decoder of the test primitives. -/
theorem verification_ops_return_status_witness :
    respFieldsPresent w3Resp = true ∧
    updFieldsPresent w3Upd = true ∧
    createFieldsPresent w3Create = true ∧
    (∃ st, verify_signature testPrims w3Resp (ascii ("WK")) (some (ascii ("rn"))) =
      Except.ok st) ∧
    (∃ st, verify_update_receipt_signature testPrims w3Upd = Except.ok st) ∧
    (∃ st, verify_create_receipt_signature testPrims w3Create = Except.ok st) :=
  ⟨by decide, by decide, by decide,
   (verification_ops_return_status testPrims w3Resp (ascii ("WK")) (some (ascii ("rn")))
      w3Upd w3Create (fun s => ⟨s, rfl⟩)).1 (by decide),
   (verification_ops_return_status testPrims w3Resp (ascii ("WK")) (some (ascii ("rn")))
      w3Upd w3Create (fun s => ⟨s, rfl⟩)).2.1 (by decide),
   (verification_ops_return_status testPrims w3Resp (ascii ("WK")) (some (ascii ("rn")))
      w3Upd w3Create (fun s => ⟨s, rfl⟩)).2.2 (by decide)⟩
/- ## Claim C5 -/
/-- The fields guaranteed by a successful `__payload_json_check`. -/
theorem payload_json_check_fields {req : WorkOrderRequest} {p : Params}
    (hreq : req.params = some p) (hch : payload_json_check req = true) :
    p.requesterNonce.isSome = true ∧ p.workOrderId.isSome = true ∧
    p.workerId.isSome = true ∧ p.requesterId.isSome = true ∧
    ∃ its, p.inData = some its ∧
      ∀ it ∈ its, it.data.isSome = true ∧ it.data ≠ some [] ∧ it.index.isSome = true := by
  simp only [payload_json_check, hreq] at hch
  by_cases hc : (p.requesterNonce.isSome && p.workOrderId.isSome && p.workerId.isSome &&
      p.requesterId.isSome && p.inData.isSome) = true
  · simp only [hc, if_true] at hch
    simp only [Bool.and_eq_true] at hc
    obtain ⟨⟨⟨⟨hn, hwo⟩, hwk⟩, hrq⟩, hin⟩ := hc
    obtain ⟨its, hits⟩ := Option.isSome_iff_exists.mp hin
    refine ⟨hn, hwo, hwk, hrq, its, hits, ?_⟩
    intro it hit
    rw [hits] at hch
    simp only [Option.getD_some, List.all_eq_true, Bool.and_eq_true,
      decide_eq_true_eq] at hch
    exact ⟨(hch it hit).1.1, (hch it hit).1.2, (hch it hit).2⟩
  · rw [if_neg hc] at hch
    exact absurd hch (by decide)
/-- A successful `__encrypt_workorder_indata` yields items that keep their
`index` and carry a (replaced) `data`. -/
theorem encryptIndataLoop_ok_items {cp : CryptoPrims} {sk siv wek : Bytes}
    {dk dIv : Option Bytes} {l l' : List DataItem}
    (h : encryptIndataLoop cp sk siv wek dk dIv l = Except.ok l')
    (hidx : ∀ it ∈ l, it.index.isSome = true) :
    ∀ it' ∈ l', it'.index.isSome = true ∧ it'.data.isSome = true := by
  induction l generalizing l' with
  | nil =>
    simp only [encryptIndataLoop, Except.ok.injEq] at h
    subst h
    intro it' h'
    cases h'
  | cons item rest ih =>
    cases hd : item.data with
    | none =>
      simp only [encryptIndataLoop, hd, lookupKey, Except.bind] at h
      exact Except.noConfusion h
    | some d =>
      cases hk : item.encryptedDataEncryptionKey with
      | none =>
        simp only [encryptIndataLoop, hd, hk, lookupKey, Except.bind] at h
        exact Except.noConfusion h
      | some ek =>
        cases hrest : encryptIndataLoop cp sk siv wek dk dIv rest with
        | error e =>
          simp only [encryptIndataLoop, hd, hk, lookupKey, Except.bind, hrest] at h
          exact Except.noConfusion h
        | ok rest2 =>
          simp only [encryptIndataLoop, hd, hk, lookupKey, Except.bind, hrest,
            Except.ok.injEq] at h
          subst h
          intro it' h'
          rcases List.mem_cons.mp h' with h1 | h2
          · subst h1
            exact ⟨hidx item (by simp), by simp⟩
          · exact ih hrest (fun it hit => hidx it (by simp [hit])) it' h2
/-- C5 (amended): in `generate_client_signature`, an empty caller-supplied
`requesterNonce` is replaced by the freshly drawn `secrets.token_hex(16)`
value (a 32-hex-character string by the stdlib contract, modelled as
`cp.token_hex`), and a malformed non-hex `requesterNonce` yields FAILED —
but only after `sessionKeyIv` has been inserted and the `inData` items have
been encrypted in place, so the returned params dictionary is mutated
(contrary to the original claim; see the counterexample).  No signing
artifacts are attached on that failure path: `requesterSignature`,
`encryptedRequestHash`, `encryptedSessionKey` and `verifyingKey` are
exactly the caller's values. -/
theorem generate_client_signature_nonce_handling (cp : CryptoPrims) (selfSt : SigState)
    (req : WorkOrderRequest) (worker : Worker) (tcs : TcsConfig) (private_key : Nat)
    (session_key session_iv encrypted_session_key : Bytes)
    (data_key data_iv : Option Bytes) (p : Params) (items items' : List DataItem)
    (hreq : req.params = some p)
    (hcheck : payload_json_check req = true)
    (hhash : tcs.HashingAlgorithm = worker.hashing_algorithm)
    (hsiga : tcs.SigningAlgorithm = worker.signing_algorithm)
    (hind : p.inData = some items)
    (henc : encryptIndataLoop cp session_key session_iv worker.encryption_key
      data_key data_iv items = Except.ok items') :
    (p.requesterNonce = some [] → p.outData = none →
      (∀ k, ∃ pb, cp.get_verifying_key k = Except.ok pb) →
      (∀ hsh, ∃ s, cp.sign_digest_deterministic private_key hsh = Except.ok s) →
      ∃ p' st', generate_client_signature cp selfSt req worker tcs private_key session_key
          session_iv encrypted_session_key data_key data_iv =
        Except.ok (st', PyReturn.jsonStr { params := some p' }, SignatureStatus.PASSED) ∧
        p'.requesterNonce = some cp.token_hex) ∧
    (∀ rn, p.requesterNonce = some rn → rn ≠ [] → is_valid_hex_str rn = false →
      generate_client_signature cp selfSt req worker tcs private_key session_key
          session_iv encrypted_session_key data_key data_iv =
        Except.ok (selfSt, PyReturn.paramsDict
          { p with sessionKeyIv := some (hexEncode session_iv), inData := some items' },
          SignatureStatus.FAILED) ∧
      ({ p with sessionKeyIv := some (hexEncode session_iv), inData := some items' } :
          Params).requesterSignature = p.requesterSignature ∧
      ({ p with sessionKeyIv := some (hexEncode session_iv), inData := some items' } :
          Params).encryptedRequestHash = p.encryptedRequestHash ∧
      ({ p with sessionKeyIv := some (hexEncode session_iv), inData := some items' } :
          Params).encryptedSessionKey = p.encryptedSessionKey ∧
      ({ p with sessionKeyIv := some (hexEncode session_iv), inData := some items' } :
          Params).verifyingKey = p.verifyingKey) := by
  obtain ⟨hnce, hwo, hwk, hrq, its0, hits0, hitems⟩ := payload_json_check_fields hreq hcheck
  have hits0' : its0 = items := by
    rw [hind] at hits0
    exact (Option.some.injEq _ _).mp hits0.symm
  subst hits0'
  have hc1 : ¬ (payload_json_check req = false) := by simp [hcheck]
  have hc2 : ¬ (tcs.HashingAlgorithm ≠ worker.hashing_algorithm) := by simp [hhash]
  have hc3 : ¬ (tcs.SigningAlgorithm ≠ worker.signing_algorithm) := by simp [hsiga]
  constructor
  · intro h0 houtD hvkAll hsignAll
    obtain ⟨pub, hpub⟩ := hvkAll private_key
    have hitems' := encryptIndataLoop_ok_items henc (fun it hit => (hitems it hit).2.2)
    obtain ⟨h1v, hh1⟩ := calculate_hash_on_concatenated_string_ok
      ⟨p.workOrderId, p.workerId, p.workloadId, p.requesterId⟩ cp.token_hex hwo hwk hrq
    obtain ⟨h2v, hh2⟩ := calculate_datahash_ok hitems'
    obtain ⟨sg, hsg⟩ := hsignAll (sha256 (h1v ++ h2v))
    refine
      ⟨{ p with
           sessionKeyIv := some (hexEncode session_iv),
           inData := some items',
           requesterNonce := some cp.token_hex,
           encryptedRequestHash := some (hexEncode (cp.encrypt_data (sha256 (h1v ++ h2v)) (some session_key) (some session_iv))),
           requesterSignature := some (base64Encode sg),
           encryptedSessionKey := some (hexEncode encrypted_session_key),
           verifyingKey := some pub },
       { private_key := some private_key, public_key := some pub }, ?_, rfl⟩
    simp only [generate_client_signature, if_neg hc1, if_neg hc2, if_neg hc3, hreq,
      lookupKey, Except.bind, hind, henc, h0, List.length_nil, if_pos rfl,
      gcsAfterNonce, Params.headerView, hh1, hh2, houtD, List.append_nil,
      generate_signature, hpub, hsg, Bool.true_eq_false, if_false, if_true]
  · intro rn hrn hne hhex
    have hlen : ¬ (rn.length = 0) := by simpa using hne
    refine ⟨?_, rfl, rfl, rfl, rfl⟩
    simp only [generate_client_signature, if_neg hc1, if_neg hc2, if_neg hc3, hreq,
      lookupKey, Except.bind, hind, henc, hrn, if_neg hlen, hhex, if_pos rfl, if_true]
set_option maxRecDepth 100000 in
/-- C5 counterexample: with the malformed non-hex nonce `"zz"`, the call
returns FAILED together with a params dictionary whose `sessionKeyIv` and
`inData` differ from the caller's payload — other fields of the payload
are mutated before the nonce check, contrary to the claim. -/
theorem generate_client_signature_mutation_counterexample :
    generate_client_signature testPrims {} c5Req c5Worker c5Tcs 5 (ascii ("SK"))
        (ascii ("SV")) (ascii ("EK")) none none =
      Except.ok ({}, PyReturn.paramsDict c5Mut, SignatureStatus.FAILED) ∧
    c5Mut.sessionKeyIv ≠ c5Params.sessionKeyIv ∧
    c5Mut.inData ≠ c5Params.inData := by
  refine ⟨by decide, by decide, by decide⟩
set_option maxRecDepth 1000000 in
/-- C5 witness: the amended theorem applied at concrete requests — an empty
nonce is replaced by the drawn `token_hex` on the PASSED path, and the
non-hex nonce `"zz"` yields FAILED with the mutated params dictionary. -/
theorem generate_client_signature_nonce_handling_witness :
    (∃ p' st', generate_client_signature testPrims {} w5Req c5Worker c5Tcs 5 (ascii ("SK"))
        (ascii ("SV")) (ascii ("EK")) none none =
      Except.ok (st', PyReturn.jsonStr { params := some p' }, SignatureStatus.PASSED) ∧
      p'.requesterNonce = some testPrims.token_hex) ∧
    generate_client_signature testPrims {} c5Req c5Worker c5Tcs 5 (ascii ("SK"))
        (ascii ("SV")) (ascii ("EK")) none none =
      Except.ok ({}, PyReturn.paramsDict c5Mut, SignatureStatus.FAILED) :=
  ⟨(generate_client_signature_nonce_handling testPrims {} w5Req c5Worker c5Tcs 5
      (ascii ("SK")) (ascii ("SV")) (ascii ("EK")) none none w5Params [c5Item]
      [{ c5Item with data := some (base64Encode (ascii ("abc"))) }]
      rfl (by decide) rfl rfl rfl (by decide)).1 rfl rfl
      (fun k => ⟨[80, k % 256], rfl⟩) (fun hsh => ⟨5 % 256 :: hsh, rfl⟩),
   ((generate_client_signature_nonce_handling testPrims {} c5Req c5Worker c5Tcs 5
      (ascii ("SK")) (ascii ("SV")) (ascii ("EK")) none none c5Params [c5Item]
      [{ c5Item with data := some (base64Encode (ascii ("abc"))) }]
      rfl (by decide) rfl rfl rfl (by decide)).2 (ascii ("zz")) rfl (by decide)
      (by decide)).1⟩
